import Mathlib

/-!
Shallow embedding of the archiving decision pipeline of `archive-pdf-urls`
(crate `waybackmachine-client`): URL validation and exclusion
(`src/waybackmachine-client/src/archivableurl.rs`), the error taxonomy
(`src/waybackmachine-client/src/errors.rs`), and the client configuration,
existence checker and archive orchestrator
(`src/waybackmachine-client/src/lib.rs`).

Network I/O is abstracted as an environment `Env` of pure response
functions (one per endpoint), and every pipeline function additionally
returns the list of HTTP requests it issued, so that claims about which
requests are (not) sent can be stated and proved.  The `url` crate's
WHATWG parser is likewise abstracted as a function `String → Option Url`
carried inside `Env` (or passed explicitly): the repository only ever
consumes its output through `scheme`, `host` and the rendered string.
-/

/-- The error enum of `src/waybackmachine-client/src/errors.rs`. -/
inductive Error where
  | InvalidUrl (url : String)
  | RequestFailed (err : String)
  | CannotArchive (code : String) (url : String)
  | CannotCheckArchive (error : String)
  | NoRecentArchive (url : String)
  | ExcludedUrl (url : String)
deriving DecidableEq, Repr

/-- `true` exactly on the two error kinds produced only inside the
existence checker (`NoRecentArchive`, `CannotCheckArchive`). -/
def Error.isCheckInternal : Error → Bool
  | .NoRecentArchive _ => true
  | .CannotCheckArchive _ => true
  | _ => false

/-- An IPv4 address as four octets (`std::net::Ipv4Addr`). -/
structure Ipv4Addr where
  o0 : Nat
  o1 : Nat
  o2 : Nat
  o3 : Nat
deriving DecidableEq, Repr

/-- `Ipv4Addr::is_loopback`: the 127.0.0.0/8 block. -/
def Ipv4Addr.is_loopback (ip : Ipv4Addr) : Bool := ip.o0 = 127

/-- `Ipv4Addr::is_private`: 10/8, 172.16/12 and 192.168/16. -/
def Ipv4Addr.is_private (ip : Ipv4Addr) : Bool :=
  ip.o0 = 10 || (ip.o0 = 172 && 16 ≤ ip.o1 && ip.o1 ≤ 31) || (ip.o0 = 192 && ip.o1 = 168)

/-- `Ipv4Addr::is_multicast`: the 224.0.0.0/4 block. -/
def Ipv4Addr.is_multicast (ip : Ipv4Addr) : Bool := 224 ≤ ip.o0 && ip.o0 ≤ 239

/-- `Ipv4Addr::is_unspecified`: 0.0.0.0. -/
def Ipv4Addr.is_unspecified (ip : Ipv4Addr) : Bool :=
  ip.o0 = 0 && ip.o1 = 0 && ip.o2 = 0 && ip.o3 = 0

/-- An IPv6 address as eight 16-bit segments (`std::net::Ipv6Addr`). -/
structure Ipv6Addr where
  s0 : Nat
  s1 : Nat
  s2 : Nat
  s3 : Nat
  s4 : Nat
  s5 : Nat
  s6 : Nat
  s7 : Nat
deriving DecidableEq, Repr

/-- `Ipv6Addr::is_loopback`: the address `::1`. -/
def Ipv6Addr.is_loopback (ip : Ipv6Addr) : Bool :=
  ip.s0 = 0 && ip.s1 = 0 && ip.s2 = 0 && ip.s3 = 0 &&
  ip.s4 = 0 && ip.s5 = 0 && ip.s6 = 0 && ip.s7 = 1

/-- `Ipv6Addr::is_multicast`: `(segments()[0] & 0xff00) == 0xff00`,
i.e. the high byte of the first segment is 0xff. -/
def Ipv6Addr.is_multicast (ip : Ipv6Addr) : Bool := ip.s0 / 256 % 256 = 255

/-- `Ipv6Addr::is_unspecified`: the address `::`. -/
def Ipv6Addr.is_unspecified (ip : Ipv6Addr) : Bool :=
  ip.s0 = 0 && ip.s1 = 0 && ip.s2 = 0 && ip.s3 = 0 &&
  ip.s4 = 0 && ip.s5 = 0 && ip.s6 = 0 && ip.s7 = 0

/-- The host of a parsed URL (`url::Host`). -/
inductive Host where
  | domain (d : String)
  | ipv4 (ip : Ipv4Addr)
  | ipv6 (ip : Ipv6Addr)
deriving DecidableEq, Repr

/-- A parsed URL (`url::Url`) as the repository consumes it: its scheme,
its optional host, and the canonical serialization returned by
`as_str`/`to_string`/`Display`. -/
structure Url where
  scheme : String
  host : Option Host
  rendered : String
deriving DecidableEq, Repr

/-- Whether the first character list is a prefix of the second. -/
def charsStartWith : List Char → List Char → Bool
  | [], _ => true
  | _ :: _, [] => false
  | p :: ps, c :: cs => p = c && charsStartWith ps cs

/-- Whether the first character list occurs contiguously in the second. -/
def charsContain (pat : List Char) : List Char → Bool
  | [] => charsStartWith pat []
  | c :: cs => charsStartWith pat (c :: cs) || charsContain pat cs

/-- Rust `str::contains`: substring containment. -/
def strContains (s pat : String) : Bool := charsContain pat.toList s.toList

/-- `EXCLUDED_DOMAINS` of `archivableurl.rs`: domains that block wayback
requests. -/
def EXCLUDED_DOMAINS : List String :=
  ["archive.org", "jstor.org", "diw.de", "youtube.com", "plato.stanford.edu"]

/-- `ArchivableUrl` of `archivableurl.rs`: a URL that passed validation. -/
structure ArchivableUrl where
  url : Url
deriving DecidableEq, Repr

/-- The host arm of `ArchivableUrl::validate_url` (the `match host`
block with its early returns): localhost-substring and exclusion-list
checks for domains, range checks for IP hosts.  `rendered` is
`self.url.to_string()`. -/
def hostCheck (rendered : String) : Host → Except Error Unit
  | .domain d =>
    if strContains d "localhost" then
      .error (.InvalidUrl rendered)
    else if EXCLUDED_DOMAINS.any (fun pattern => strContains d pattern) then
      .error (.ExcludedUrl rendered)
    else
      .ok ()
  | .ipv4 ip =>
    if ip.is_loopback || ip.is_private || ip.is_multicast || ip.is_unspecified then
      .error (.InvalidUrl rendered)
    else
      .ok ()
  | .ipv6 ip =>
    if ip.is_loopback || ip.is_multicast then
      .error (.InvalidUrl rendered)
    else
      .ok ()

/-- `ArchivableUrl::validate_url`: host-presence, localhost-substring,
exclusion-list, IP-range and scheme checks, in source order. -/
def ArchivableUrl.validate_url (self : ArchivableUrl) : Except Error ArchivableUrl :=
  match self.url.host with
  | none => .error (.InvalidUrl self.url.rendered)
  | some host =>
    match hostCheck self.url.rendered host with
    | .error e => .error e
    | .ok () =>
      if !(["http", "https"].contains self.url.scheme) then
        .error (.InvalidUrl self.url.rendered)
      else
        .ok self

/-- `ArchivableUrl::parse`, parameterized by the `url` crate's parser
`P` (`Url::parse`): a parse failure is `InvalidUrl` carrying the raw
input; a successful parse is then validated. -/
def ArchivableUrl.parse (P : String → Option Url) (url : String) :
    Except Error ArchivableUrl :=
  match P url with
  | none => .error (.InvalidUrl url)
  | some parsed_url => ArchivableUrl.validate_url ⟨parsed_url⟩

/-- `ArchivableUrl::as_str` and its `Display` both return the inner
URL's serialization. -/
def ArchivableUrl.as_str (self : ArchivableUrl) : String := self.url.rendered

instance {ε α : Type} [DecidableEq ε] [DecidableEq α] : DecidableEq (Except ε α) := by
  intro a b
  cases a <;> cases b
  case error.error e f =>
    exact if h : e = f then .isTrue (by rw [h]) else .isFalse (by simp [h])
  case error.ok e x => exact .isFalse (by simp)
  case ok.error x e => exact .isFalse (by simp)
  case ok.ok x y =>
    exact if h : x = y then .isTrue (by rw [h]) else .isFalse (by simp [h])

/-- A calendar date-time without timezone (`chrono::NaiveDateTime`), at
second precision as the pipeline uses it. -/
structure NaiveDateTime where
  year : Int
  month : Nat
  day : Nat
  hour : Nat
  minute : Nat
  second : Nat
deriving DecidableEq, Repr

/-- Chronological strict order on `NaiveDateTime` (chrono's derived
`Ord`): lexicographic on the fields. -/
def NaiveDateTime.ltb (a b : NaiveDateTime) : Bool :=
  if a.year ≠ b.year then a.year < b.year
  else if a.month ≠ b.month then a.month < b.month
  else if a.day ≠ b.day then a.day < b.day
  else if a.hour ≠ b.hour then a.hour < b.hour
  else if a.minute ≠ b.minute then a.minute < b.minute
  else decide (a.second < b.second)

/-- Gregorian leap-year test. -/
def isLeapYear (y : Int) : Bool := y % 4 = 0 && (y % 100 ≠ 0 || y % 400 = 0)

/-- Number of days of month `m` of year `y`. -/
def daysInMonth (y : Int) (m : Nat) : Nat :=
  if m = 2 then (if isLeapYear y then 29 else 28)
  else if m = 4 ∨ m = 6 ∨ m = 9 ∨ m = 11 then 30
  else 31

/-- Value of a list of decimal digit characters. -/
def digitsToNat (cs : List Char) : Nat :=
  cs.foldl (fun acc c => acc * 10 + (c.toNat - 48)) 0

/-- `NaiveDateTime::parse_from_str(s, "%Y%m%d%H%M%S")`: fourteen decimal
digits split as year/month/day/hour/minute/second, valid as a calendar
date-time; anything else is a parse error (`None`). -/
def parseTimestamp (s : String) : Option NaiveDateTime :=
  let cs := s.toList
  if cs.length = 14 && cs.all (fun c => c.isDigit) then
    let y : Int := (digitsToNat (cs.take 4) : Nat)
    let mo := digitsToNat ((cs.drop 4).take 2)
    let d := digitsToNat ((cs.drop 6).take 2)
    let h := digitsToNat ((cs.drop 8).take 2)
    let mi := digitsToNat ((cs.drop 10).take 2)
    let sec := digitsToNat ((cs.drop 12).take 2)
    if 1 ≤ mo && mo ≤ 12 && 1 ≤ d && d ≤ daysInMonth y mo &&
       h ≤ 23 && mi ≤ 59 && sec ≤ 59 then
      some ⟨y, mo, d, h, mi, sec⟩
    else none
  else none

/-- The `Display` string of a `chrono::ParseError`.  Modelled opaquely:
the pipeline stores it inside `CannotCheckArchive` and never inspects it. -/
def chronoParseErrorMessage : String := "timestamp parse error"

/-- Days since 1970-01-01 of a Gregorian date (the civil-from-days
inverse pair used to model `chrono`'s day arithmetic). -/
def daysFromCivil (y : Int) (m d : Nat) : Int :=
  let y' : Int := if m ≤ 2 then y - 1 else y
  let era : Int := (if 0 ≤ y' then y' else y' - 399) / 400
  let yoe : Int := y' - era * 400
  let mp : Int := ((m : Int) + 9) % 12
  let doy : Int := (153 * mp + 2) / 5 + (d : Int) - 1
  let doe : Int := yoe * 365 + yoe / 4 - yoe / 100 + doy
  era * 146097 + doe - 719468

/-- Gregorian date from days since 1970-01-01. -/
def civilFromDays (z0 : Int) : Int × Nat × Nat :=
  let z : Int := z0 + 719468
  let era : Int := (if 0 ≤ z then z else z - 146096) / 146097
  let doe : Int := z - era * 146097
  let yoe : Int := (doe - doe / 1460 + doe / 36524 - doe / 146096) / 365
  let y : Int := yoe + era * 400
  let doy : Int := doe - (365 * yoe + yoe / 4 - yoe / 100)
  let mp : Int := (5 * doy + 2) / 153
  let d : Int := doy - (153 * mp + 2) / 5 + 1
  let m : Int := if mp < 10 then mp + 3 else mp - 9
  (if m ≤ 2 then y + 1 else y, m.toNat, d.toNat)

/-- `now - TimeDelta::try_days(days)` on a `NaiveDateTime`: shift the
date part by whole days, keeping the time of day. -/
def nowMinusDays (now : NaiveDateTime) (days : Int) : NaiveDateTime :=
  let c := civilFromDays (daysFromCivil now.year now.month now.day - days)
  ⟨c.1, c.2.1, c.2.2, now.hour, now.minute, now.second⟩

/-- `DEFAULT_MAX_REQUEST_RETRIES` of `lib.rs`. -/
def DEFAULT_MAX_REQUEST_RETRIES : Nat := 10

/-- `DEFAULT_ARCHIVE_THRESHOLD_DAYS` of `lib.rs`. -/
def DEFAULT_ARCHIVE_THRESHOLD_DAYS : Int := 30

/-- `DEFAULT_USER_AGENT` of `lib.rs`. -/
def DEFAULT_USER_AGENT : String :=
  "Mozilla/5.0 (X11; Fedora; Linux x86_64; rv:40.0) Gecko/20100101 Firefox/40.0"

/-- `WAYBACK_MACHINE_ARCHIVE_ENDPOINT` of `lib.rs`. -/
def WAYBACK_MACHINE_ARCHIVE_ENDPOINT : String := "https://web.archive.org/save/"

/-- `WAYBACK_MACHINE_CHECK_ENDPOINT` of `lib.rs`. -/
def WAYBACK_MACHINE_CHECK_ENDPOINT : String :=
  "https://web.archive.org/cdx/search/cdx?fl=timestamp&limit=-1&output=json&url="

/-- `reqwest_retry::policies::ExponentialBackoff` as the pipeline
configures it: only its retry ceiling is observable here. -/
structure RetryPolicy where
  max_retries : Nat
deriving DecidableEq, Repr

/-- `ClientConfig` of `lib.rs`. -/
structure ClientConfig where
  archive_endpoint : String
  check_endpoint : String
  retry_policy : RetryPolicy
  archive_threshold_timestamp : NaiveDateTime
  user_agent : String
deriving DecidableEq, Repr

/-- `ClientConfig::default`, with `Utc::now()` passed in explicitly:
default endpoints, retry ceiling `DEFAULT_MAX_REQUEST_RETRIES`, threshold
timestamp `now - DEFAULT_ARCHIVE_THRESHOLD_DAYS` days, default agent. -/
def ClientConfig.default (now : NaiveDateTime) : ClientConfig where
  archive_endpoint := WAYBACK_MACHINE_ARCHIVE_ENDPOINT
  check_endpoint := WAYBACK_MACHINE_CHECK_ENDPOINT
  retry_policy := ⟨DEFAULT_MAX_REQUEST_RETRIES⟩
  archive_threshold_timestamp := nowMinusDays now DEFAULT_ARCHIVE_THRESHOLD_DAYS
  user_agent := DEFAULT_USER_AGENT

/-- `ArchiveResult` of `lib.rs`: status of the archive request. -/
inductive ArchiveResult where
  | Archived (finalUrl : String)
  | RecentArchiveExists
deriving DecidableEq, Repr

/-- Outcome of one (post-retry) GET to the check endpoint: a transport
error (`send()` failed after retries), a body that is not a JSON
`Vec<Vec<String>>` (`json()` failed), or the parsed rows. -/
inductive CheckReply where
  | sendErr (msg : String)
  | jsonErr (msg : String)
  | rows (r : List (List String))
deriving DecidableEq, Repr

/-- Outcome of one (post-retry) GET to the archive endpoint: a transport
error, or a response with its status code and final (post-redirect) URL. -/
inductive SubmitReply where
  | err (msg : String)
  | ok (status : Nat) (finalUrl : String)
deriving DecidableEq, Repr

/-- One HTTP request issued by the pipeline, tagged by which call site
issued it and carrying the full requested URL. -/
inductive Request where
  | resolveGet (url : String)
  | checkGet (url : String)
  | submitGet (url : String)
deriving DecidableEq, Repr

/-- The pipeline's environment: the `url` crate's parser and the
(post-retry) network behaviour of each endpoint, as pure functions of
the requested URL.  `resolve u = some f` models a completed GET to `u`
whose `response.url()` is `f`; `none` models a transport error. -/
structure Env where
  urlParse : String → Option Url
  resolve : String → Option String
  check : String → CheckReply
  submit : String → SubmitReply

/-- `StatusCode::is_success`: a 2xx status. -/
def isSuccessStatus (status : Nat) : Bool := 200 ≤ status && status ≤ 299

/-- The `Display` string of an `http::StatusCode` (its code and
canonical reason).  Modelled as the decimal code: the pipeline stores it
inside `CannotArchive` and never inspects it. -/
def statusString (status : Nat) : String := toString status

/-- `WaybackMachineClient::check_recent_archive_exists`: re-validate the
URL, GET `check_endpoint + url`, and decide freshness from the parsed
rows; also returns the requests issued. -/
def check_recent_archive_exists (env : Env) (cfg : ClientConfig) (url : String) :
    Except Error Unit × List Request :=
  match ArchivableUrl.parse env.urlParse url with
  | .error e => (.error e, [])
  | .ok to_check =>
    let reqUrl := cfg.check_endpoint ++ to_check.as_str
    let result : Except Error Unit :=
      match env.check reqUrl with
      | .sendErr msg => .error (.CannotCheckArchive msg)
      | .jsonErr msg => .error (.CannotCheckArchive msg)
      | .rows rows =>
        match rows with
        | [_, [t]] =>
          match parseTimestamp t with
          | none => .error (.CannotCheckArchive chronoParseErrorMessage)
          | some snapshot_timestamp =>
            if NaiveDateTime.ltb cfg.archive_threshold_timestamp snapshot_timestamp then
              .ok ()
            else
              .error (.NoRecentArchive url)
        | _ => .error (.NoRecentArchive url)
    (result, [.checkGet reqUrl])

/-- The RESOLVE step of `archive_url`: GET the validated URL; on a
transport error keep the original URL (`map_or(Ok(to_archive.clone()), …)`),
otherwise re-validate the response's final URL and keep its inner `Url`. -/
def resolveStage (env : Env) (to_archive : ArchivableUrl) : Except Error Url :=
  match env.resolve to_archive.as_str with
  | none => .ok to_archive.url
  | some finalUrl =>
    match ArchivableUrl.parse env.urlParse finalUrl with
    | .error e => .error e
    | .ok resolved => .ok resolved.url

/-- The CHECK and SUBMIT steps of `archive_url`, after validation and
resolution: return `RecentArchiveExists` if the existence check
succeeds; otherwise GET `archive_endpoint + to_archive`; on a
non-success status re-check the original `url` once and fail with
`CannotArchive` only if that guard also fails. -/
def checkAndSubmit (env : Env) (cfg : ClientConfig) (url : String)
    (to_archive : ArchivableUrl) (to_check : Url) :
    Except Error ArchiveResult × List Request :=
  let chk := check_recent_archive_exists env cfg to_check.rendered
  match chk.1 with
  | .ok _ => (.ok .RecentArchiveExists, chk.2)
  | .error _ =>
    let submitUrl := cfg.archive_endpoint ++ to_archive.as_str
    match env.submit submitUrl with
    | .err msg => (.error (.RequestFailed msg), chk.2 ++ [.submitGet submitUrl])
    | .ok status finalUrl =>
      if isSuccessStatus status then
        (.ok (.Archived finalUrl), chk.2 ++ [.submitGet submitUrl])
      else
        let compensating := check_recent_archive_exists env cfg url
        match compensating.1 with
        | .error _ =>
          (.error (.CannotArchive (statusString status) url),
           chk.2 ++ [.submitGet submitUrl] ++ compensating.2)
        | .ok _ =>
          (.ok (.Archived finalUrl), chk.2 ++ [.submitGet submitUrl] ++ compensating.2)

/-- `WaybackMachineClient::archive_url`: VALIDATE, RESOLVE, then CHECK
and SUBMIT; also returns the requests issued, in order. -/
def archive_url (env : Env) (cfg : ClientConfig) (url : String) :
    Except Error ArchiveResult × List Request :=
  match ArchivableUrl.parse env.urlParse url with
  | .error e => (.error e, [])
  | .ok to_archive =>
    let rReq := Request.resolveGet to_archive.as_str
    match resolveStage env to_archive with
    | .error e => (.error e, [rReq])
    | .ok to_check =>
      let rest := checkAndSubmit env cfg url to_archive to_check
      (rest.1, rReq :: rest.2)

/-- A valid https URL fixture. -/
def urlA : Url := ⟨"https", some (.domain "a.example"), "https://a.example/"⟩

/-- A second valid https URL fixture, used as a redirect target. -/
def urlB : Url := ⟨"https", some (.domain "b.example"), "https://b.example/"⟩

/-- An ftp URL on an excluded domain. -/
def urlFtp : Url := ⟨"ftp", some (.domain "jstor.org"), "ftp://jstor.org/"⟩

/-- An http URL whose host is the unspecified IPv6 address `::`. -/
def urlV6 : Url := ⟨"http", some (.ipv6 ⟨0, 0, 0, 0, 0, 0, 0, 0⟩), "http://[::]/"⟩

/-- An http URL whose host is the IPv4 loopback address. -/
def urlLoop4 : Url := ⟨"http", some (.ipv4 ⟨127, 0, 0, 1⟩), "http://127.0.0.1/"⟩

/-- A concrete URL parser covering the fixture URLs (what `Url::parse`
returns on them). -/
def fixtureParse : String → Option Url := fun s =>
  if s = "https://a.example/" then some urlA
  else if s = "https://b.example/" then some urlB
  else if s = "ftp://jstor.org/" then some urlFtp
  else if s = "http://[::]/" then some urlV6
  else if s = "http://127.0.0.1/" then some urlLoop4
  else none

/-- A concrete configuration fixture with a September 2025 cutoff. -/
def cfgFixture : ClientConfig :=
  ⟨"SAVE/", "CHECK/", ⟨3⟩, ⟨2025, 9, 12, 0, 0, 0⟩, "ua"⟩

/-- Environment where resolving `https://a.example/` redirects to
`https://b.example/`, the check endpoint reports no snapshots, and
submission succeeds. -/
def envResolveDiff : Env where
  urlParse := fixtureParse
  resolve := fun s => if s = "https://a.example/" then some "https://b.example/" else none
  check := fun _ => .rows []
  submit := fun _ => .ok 200 "https://final.example/"

/-- Environment where resolution always fails (falling back to the
original URL), and the check endpoint reports a snapshot of
2025-10-01 00:00:00, newer than `cfgFixture`'s cutoff of 2025-09-12. -/
def envFresh : Env where
  urlParse := fixtureParse
  resolve := fun _ => none
  check := fun _ => .rows [["timestamp"], ["20251001000000"]]
  submit := fun _ => .ok 200 "https://final.example/"

/-- Environment where resolution fails (falling back to the original
URL), the check endpoint reports no snapshots, and submission always
returns status 520. -/
def envGuardFail : Env where
  urlParse := fixtureParse
  resolve := fun _ => none
  check := fun _ => .rows []
  submit := fun _ => .ok 520 "https://failed.example/"

/-- Environment where resolution redirects `https://a.example/` to
`https://b.example/`, the check endpoint has no snapshot for the
resolved URL but a fresh one for the original URL, and submission
returns status 520: the false-negative guard then succeeds. -/
def envGuardOk : Env where
  urlParse := fixtureParse
  resolve := fun s => if s = "https://a.example/" then some "https://b.example/" else none
  check := fun s =>
    if s = "CHECK/" ++ "https://a.example/" then
      .rows [["timestamp"], ["20251001000000"]]
    else .rows []
  submit := fun _ => .ok 520 "https://failed.example/"

/-- The row-dispatch step of `check_recent_archive_exists` (its
`match &response.0[..]` block), as a standalone function for stating the
reduction of the checker under a given parsed response. -/
def checkRowsDecision (cfg : ClientConfig) (url : String)
    (rows : List (List String)) : Except Error Unit :=
  match rows with
  | [_, [t]] =>
    match parseTimestamp t with
    | none => .error (.CannotCheckArchive chronoParseErrorMessage)
    | some ts =>
      if NaiveDateTime.ltb cfg.archive_threshold_timestamp ts then .ok ()
      else .error (.NoRecentArchive url)
  | _ => .error (.NoRecentArchive url)

/-- C5: the claim says every URL with scheme outside {http, https} fails
with `InvalidUrl`; but `validate_url` runs the exclusion check before
the scheme check, so `ftp://jstor.org/` fails with `ExcludedUrl`
instead. -/
theorem C5_counterexample :
    ArchivableUrl.parse fixtureParse "ftp://jstor.org/" =
      .error (.ExcludedUrl "ftp://jstor.org/") ∧
    urlFtp.scheme ≠ "http" ∧ urlFtp.scheme ≠ "https" := by
  decide

/-- C5 (amended): every URL whose scheme is neither http nor https fails
validation, with `ExcludedUrl` when the host is a domain matching the
exclusion list, and with `InvalidUrl` otherwise. -/
theorem C5_nonhttp_scheme_rejected (P : String → Option Url) (raw : String) (u : Url)
    (h1 : P raw = some u) (h2 : u.scheme ≠ "http") (h3 : u.scheme ≠ "https") :
    (∃ d, u.host = some (.domain d) ∧
       EXCLUDED_DOMAINS.any (fun pat => strContains d pat) = true ∧
       ArchivableUrl.parse P raw = .error (.ExcludedUrl u.rendered)) ∨
    ArchivableUrl.parse P raw = .error (.InvalidUrl u.rendered) := by
  unfold ArchivableUrl.parse
  rw [h1]
  unfold ArchivableUrl.validate_url
  rcases u with ⟨sch, host, ren⟩
  rcases host with _ | h
  · right; rfl
  · rcases h with d | ip | ip
    · by_cases hl : strContains d "localhost" = true
      · right; simp [hostCheck, hl]
      · by_cases he : EXCLUDED_DOMAINS.any (fun pat => strContains d pat) = true
        · left
          refine ⟨d, rfl, he, ?_⟩
          simp [hostCheck, hl, he]
        · right
          simp only [Bool.not_eq_true] at hl he
          simp [hostCheck, hl, he]
          exact ⟨h2, h3⟩
    · by_cases hip : (ip.is_loopback || ip.is_private || ip.is_multicast
          || ip.is_unspecified) = true
      · right; simp [hostCheck, hip]
      · right
        simp only [Bool.not_eq_true] at hip
        simp [hostCheck, hip]
        exact ⟨h2, h3⟩
    · by_cases hip : (ip.is_loopback || ip.is_multicast) = true
      · right; simp [hostCheck, hip]
      · right
        simp only [Bool.not_eq_true] at hip
        simp [hostCheck, hip]
        exact ⟨h2, h3⟩

/-- C5 (witness): the amended statement at `ftp://jstor.org/`. -/
theorem C5_witness :
    (∃ d, urlFtp.host = some (.domain d) ∧
       EXCLUDED_DOMAINS.any (fun pat => strContains d pat) = true ∧
       ArchivableUrl.parse fixtureParse "ftp://jstor.org/" =
         .error (.ExcludedUrl urlFtp.rendered)) ∨
    ArchivableUrl.parse fixtureParse "ftp://jstor.org/" =
      .error (.InvalidUrl urlFtp.rendered) :=
  C5_nonhttp_scheme_rejected fixtureParse "ftp://jstor.org/" urlFtp
    (by decide) (by decide) (by decide)

/-- C6: the claim says every URL whose host is an unspecified IP address
fails with `InvalidUrl`; but the IPv6 arm of `validate_url` only tests
`is_loopback` and `is_multicast`, so `http://[::]/` (unspecified IPv6
host) passes validation. -/
theorem C6_counterexample :
    ArchivableUrl.parse fixtureParse "http://[::]/" = .ok ⟨urlV6⟩ ∧
    Ipv6Addr.is_unspecified ⟨0, 0, 0, 0, 0, 0, 0, 0⟩ = true := by
  decide

/-- C6 (amended): an IPv4 host that is loopback, private-range,
multicast or unspecified fails with `InvalidUrl`; an IPv6 host fails
with `InvalidUrl` when it is loopback or multicast (unspecified IPv6
hosts are not rejected). -/
theorem C6_ip_hosts_rejected (P : String → Option Url) (raw : String) (u : Url)
    (h1 : P raw = some u) :
    (∀ ip, u.host = some (.ipv4 ip) →
       (ip.is_loopback || ip.is_private || ip.is_multicast || ip.is_unspecified) = true →
       ArchivableUrl.parse P raw = .error (.InvalidUrl u.rendered)) ∧
    (∀ ip, u.host = some (.ipv6 ip) →
       (ip.is_loopback || ip.is_multicast) = true →
       ArchivableUrl.parse P raw = .error (.InvalidUrl u.rendered)) := by
  constructor
  · intro ip hhost hip
    unfold ArchivableUrl.parse
    rw [h1]
    unfold ArchivableUrl.validate_url
    rcases u with ⟨sch, host, ren⟩
    have h' : host = some (Host.ipv4 ip) := hhost
    subst h'
    simp [hostCheck, hip]
  · intro ip hhost hip
    unfold ArchivableUrl.parse
    rw [h1]
    unfold ArchivableUrl.validate_url
    rcases u with ⟨sch, host, ren⟩
    have h' : host = some (Host.ipv6 ip) := hhost
    subst h'
    simp [hostCheck, hip]

/-- C6 (witness): the amended statement at `http://127.0.0.1/`. -/
theorem C6_witness :
    (∀ ip, urlLoop4.host = some (.ipv4 ip) →
       (ip.is_loopback || ip.is_private || ip.is_multicast || ip.is_unspecified) = true →
       ArchivableUrl.parse fixtureParse "http://127.0.0.1/" =
         .error (.InvalidUrl urlLoop4.rendered)) ∧
    (∀ ip, urlLoop4.host = some (.ipv6 ip) →
       (ip.is_loopback || ip.is_multicast) = true →
       ArchivableUrl.parse fixtureParse "http://127.0.0.1/" =
         .error (.InvalidUrl urlLoop4.rendered)) :=
  C6_ip_hosts_rejected fixtureParse "http://127.0.0.1/" urlLoop4 (by decide)

/-- C8: the claim says `max_request_retries` defaults to 5, but
`DEFAULT_MAX_REQUEST_RETRIES` in `lib.rs` is 10: the default
configuration's retry ceiling is 10, not 5. -/
theorem C8_counterexample :
    (ClientConfig.default ⟨2026, 10, 12, 0, 0, 0⟩).retry_policy.max_retries = 10 ∧
    (ClientConfig.default ⟨2026, 10, 12, 0, 0, 0⟩).retry_policy.max_retries ≠ 5 := by
  constructor
  · rfl
  · intro h
    simp [ClientConfig.default, DEFAULT_MAX_REQUEST_RETRIES] at h

/-- C8 (amended): the default configuration uses a retry ceiling of
`DEFAULT_MAX_REQUEST_RETRIES = 10` and a freshness cutoff of
`now - DEFAULT_ARCHIVE_THRESHOLD_DAYS` days with
`DEFAULT_ARCHIVE_THRESHOLD_DAYS = 30`. -/
theorem C8_default_config (now : NaiveDateTime) :
    (ClientConfig.default now).retry_policy.max_retries = DEFAULT_MAX_REQUEST_RETRIES ∧
    DEFAULT_MAX_REQUEST_RETRIES = 10 ∧
    (ClientConfig.default now).archive_threshold_timestamp =
      nowMinusDays now DEFAULT_ARCHIVE_THRESHOLD_DAYS ∧
    DEFAULT_ARCHIVE_THRESHOLD_DAYS = 30 :=
  ⟨rfl, rfl, rfl, rfl⟩

/-- Helper: `hostCheck` errors are `InvalidUrl` or `ExcludedUrl`. -/
theorem hostCheck_error_kind (ren : String) (h : Host) (e : Error)
    (hc : hostCheck ren h = .error e) :
    (∃ s, e = .InvalidUrl s) ∨ (∃ s, e = .ExcludedUrl s) := by
  unfold hostCheck at hc
  split at hc
  · split at hc
    · exact .inl ⟨ren, (Except.error.inj hc).symm⟩
    · split at hc
      · exact .inr ⟨ren, (Except.error.inj hc).symm⟩
      · simp at hc
  · split at hc
    · exact .inl ⟨ren, (Except.error.inj hc).symm⟩
    · simp at hc
  · split at hc
    · exact .inl ⟨ren, (Except.error.inj hc).symm⟩
    · simp at hc

/-- Helper: `ArchivableUrl::parse` errors are `InvalidUrl` or
`ExcludedUrl`. -/
theorem parse_error_kind (P : String → Option Url) (raw : String) (e : Error)
    (h : ArchivableUrl.parse P raw = .error e) :
    (∃ s, e = .InvalidUrl s) ∨ (∃ s, e = .ExcludedUrl s) := by
  unfold ArchivableUrl.parse at h
  split at h
  · exact .inl ⟨raw, (Except.error.inj h).symm⟩
  · unfold ArchivableUrl.validate_url at h
    split at h
    · exact .inl ⟨_, (Except.error.inj h).symm⟩
    · split at h
      · rename_i e' hc
        exact hostCheck_error_kind _ _ _ (hc.trans (congrArg Except.error
          (Except.error.inj h)))
      · split at h
        · exact .inl ⟨_, (Except.error.inj h).symm⟩
        · simp at h

/-- Helper: the existence checker never issues a submission request. -/
theorem check_trace_no_submit (env : Env) (cfg : ClientConfig) (u : String)
    (s : String) :
    Request.submitGet s ∉ (check_recent_archive_exists env cfg u).2 := by
  unfold check_recent_archive_exists
  split
  · simp
  · simp

/-- Helper: any submission request issued by the CHECK/SUBMIT phase goes
to `archive_endpoint ++ to_archive`. -/
theorem checkAndSubmit_submit_url (env : Env) (cfg : ClientConfig) (url : String)
    (a : ArchivableUrl) (c : Url) (s : String)
    (hs : Request.submitGet s ∈ (checkAndSubmit env cfg url a c).2) :
    s = cfg.archive_endpoint ++ a.as_str := by
  unfold checkAndSubmit at hs
  dsimp only at hs
  split at hs
  · exact absurd hs (check_trace_no_submit env cfg c.rendered s)
  · split at hs
    · simp only [List.mem_append, List.mem_singleton] at hs
      rcases hs with h | h
      · exact absurd h (check_trace_no_submit env cfg c.rendered s)
      · exact Request.submitGet.inj h
    · split at hs
      · simp only [List.mem_append, List.mem_singleton] at hs
        rcases hs with h | h
        · exact absurd h (check_trace_no_submit env cfg c.rendered s)
        · exact Request.submitGet.inj h
      · split at hs
        · simp only [List.mem_append, List.mem_singleton] at hs
          rcases hs with (h | h) | h
          · exact absurd h (check_trace_no_submit env cfg c.rendered s)
          · exact Request.submitGet.inj h
          · exact absurd h (check_trace_no_submit env cfg url s)
        · simp only [List.mem_append, List.mem_singleton] at hs
          rcases hs with (h | h) | h
          · exact absurd h (check_trace_no_submit env cfg c.rendered s)
          · exact Request.submitGet.inj h
          · exact absurd h (check_trace_no_submit env cfg url s)

/-- C1 (amended): every submission request issued by `archive_url` goes
to `archive_endpoint` concatenated with the ORIGINAL validated URL (the
output of the VALIDATE stage), not with the redirect-resolved URL. -/
theorem C1_submit_uses_original (env : Env) (cfg : ClientConfig) (url s : String)
    (a : ArchivableUrl)
    (h1 : ArchivableUrl.parse env.urlParse url = .ok a)
    (h2 : Request.submitGet s ∈ (archive_url env cfg url).2) :
    s = cfg.archive_endpoint ++ a.as_str := by
  unfold archive_url at h2
  rw [h1] at h2
  dsimp only at h2
  split at h2
  · simp at h2
  · rename_i c hres
    simp only [List.mem_cons] at h2
    rcases h2 with h | h
    · exact absurd h (by simp)
    · exact checkAndSubmit_submit_url env cfg url a c s h

/-- C1: the claim says the submission request targets
`archive_endpoint ++ resolved_url`; but `archive_url` submits
`format!("{}{}", archive_endpoint, to_archive)` with the ORIGINAL
validated URL.  Here resolution rewrites `https://a.example/` to
`https://b.example/`, the existence check is issued on the resolved URL,
yet the submission request goes to `SAVE/https://a.example/`, not to
`SAVE/https://b.example/`. -/
theorem C1_counterexample :
    (archive_url envResolveDiff cfgFixture "https://a.example/").2 =
      [.resolveGet "https://a.example/",
       .checkGet ("CHECK/" ++ "https://b.example/"),
       .submitGet ("SAVE/" ++ "https://a.example/")] ∧
    resolveStage envResolveDiff ⟨urlA⟩ = .ok urlB ∧
    ("SAVE/" ++ "https://a.example/" : String) ≠ "SAVE/" ++ "https://b.example/" := by
  refine ⟨?_, ?_, ?_⟩ <;> decide

/-- C1 (witness): the amended statement at `envResolveDiff`. -/
theorem C1_witness :
    ("SAVE/" ++ "https://a.example/" : String) =
      cfgFixture.archive_endpoint ++ (⟨urlA⟩ : ArchivableUrl).as_str :=
  C1_submit_uses_original envResolveDiff cfgFixture "https://a.example/"
    ("SAVE/" ++ "https://a.example/") ⟨urlA⟩ (by decide) (by decide)

/-- C2: when the CHECK stage's existence check succeeds, `archive_url`
returns `RecentArchiveExists` and issues no submission request; since
`archive_url` is a pure function of the environment, two successive
calls behave identically, so the concatenated trace of two successive
calls also contains no submission request. -/
theorem C2_recent_archive_short_circuits (env : Env) (cfg : ClientConfig) (url : String)
    (a : ArchivableUrl) (c : Url)
    (h1 : ArchivableUrl.parse env.urlParse url = .ok a)
    (h2 : resolveStage env a = .ok c)
    (h3 : (check_recent_archive_exists env cfg c.rendered).1 = .ok ()) :
    (archive_url env cfg url).1 = .ok .RecentArchiveExists ∧
    ∀ s, Request.submitGet s ∉
      (archive_url env cfg url).2 ++ (archive_url env cfg url).2 := by
  have hmain : archive_url env cfg url =
      (.ok .RecentArchiveExists,
       .resolveGet a.as_str :: (check_recent_archive_exists env cfg c.rendered).2) := by
    unfold archive_url
    rw [h1]
    dsimp only
    rw [h2]
    dsimp only
    unfold checkAndSubmit
    dsimp only
    rw [h3]
  rw [hmain]
  refine ⟨rfl, ?_⟩
  intro s hmem
  simp only [List.mem_append, List.mem_cons] at hmem
  rcases hmem with (h | h) | (h | h)
  · simp at h
  · exact check_trace_no_submit env cfg c.rendered s h
  · simp at h
  · exact check_trace_no_submit env cfg c.rendered s h

/-- C2 (witness): the statement at `envFresh`. -/
theorem C2_witness :
    (archive_url envFresh cfgFixture "https://a.example/").1 =
      .ok .RecentArchiveExists ∧
    ∀ s, Request.submitGet s ∉
      (archive_url envFresh cfgFixture "https://a.example/").2 ++
      (archive_url envFresh cfgFixture "https://a.example/").2 :=
  C2_recent_archive_short_circuits envFresh cfgFixture "https://a.example/"
    ⟨urlA⟩ urlA (by decide) (by decide) (by decide)

/-- Helper: under a parsed-rows reply, the checker's outcome is the row
dispatch `checkRowsDecision`. -/
theorem check_reduces_to_rows (env : Env) (cfg : ClientConfig) (url : String)
    (a : ArchivableUrl) (rows : List (List String))
    (h1 : ArchivableUrl.parse env.urlParse url = .ok a)
    (h2 : env.check (cfg.check_endpoint ++ a.as_str) = .rows rows) :
    (check_recent_archive_exists env cfg url).1 = checkRowsDecision cfg url rows := by
  unfold check_recent_archive_exists
  rw [h1]
  dsimp only
  simp only [h2]
  rfl

/-- C3: given a parsed timestamp-index response `rows`, the existence
check succeeds iff `rows` is a header row plus exactly one single-field
record whose timestamp parses and is strictly newer than the cutoff; a
parsed timestamp at or before the cutoff, or any other shape, yields
`NoRecentArchive`; a single-field record whose timestamp does not parse
yields `CannotCheckArchive`. -/
theorem C3_check_freshness_decision (env : Env) (cfg : ClientConfig) (url : String)
    (a : ArchivableUrl) (rows : List (List String))
    (h1 : ArchivableUrl.parse env.urlParse url = .ok a)
    (h2 : env.check (cfg.check_endpoint ++ a.as_str) = .rows rows) :
    ((check_recent_archive_exists env cfg url).1 = .ok () ↔
      ∃ hdr t ts, rows = [hdr, [t]] ∧ parseTimestamp t = some ts ∧
        NaiveDateTime.ltb cfg.archive_threshold_timestamp ts = true) ∧
    (∀ hdr t ts, rows = [hdr, [t]] → parseTimestamp t = some ts →
      NaiveDateTime.ltb cfg.archive_threshold_timestamp ts = false →
      (check_recent_archive_exists env cfg url).1 = .error (.NoRecentArchive url)) ∧
    ((∀ hdr t, rows ≠ [hdr, [t]]) →
      (check_recent_archive_exists env cfg url).1 = .error (.NoRecentArchive url)) ∧
    (∀ hdr t, rows = [hdr, [t]] → parseTimestamp t = none →
      (check_recent_archive_exists env cfg url).1 =
        .error (.CannotCheckArchive chronoParseErrorMessage)) := by
  rw [check_reduces_to_rows env cfg url a rows h1 h2]
  rcases rows with _ | ⟨r0, _ | ⟨r1, _ | ⟨r2, rest⟩⟩⟩
  · simp [checkRowsDecision]
  · simp [checkRowsDecision]
  · rcases r1 with _ | ⟨t, _ | ⟨t2, tr⟩⟩
    · simp [checkRowsDecision]
    · cases hp : parseTimestamp t with
      | none =>
        simp [checkRowsDecision, hp]
        intro hdr t1 ts h0 ht hp1
        subst ht
        rw [hp] at hp1
        simp at hp1
      | some ts =>
        cases hlt : NaiveDateTime.ltb cfg.archive_threshold_timestamp ts with
        | true =>
          simp [checkRowsDecision, hp, hlt]
          constructor
          · exact ⟨r0, t, ⟨rfl, rfl⟩, ts, hp, hlt⟩
          · intro hdr t1 ts1 h0 ht hp1
            subst ht
            rw [hp] at hp1
            cases hp1
            exact hlt
        | false =>
          simp [checkRowsDecision, hp, hlt]
    · simp [checkRowsDecision]
  · simp [checkRowsDecision]

/-- C3 (witness): at `envFresh` the checker succeeds on the fresh
snapshot `20251001000000`. -/
theorem C3_witness :
    (check_recent_archive_exists envFresh cfgFixture "https://a.example/").1 =
      .ok () :=
  ((C3_check_freshness_decision envFresh cfgFixture "https://a.example/" ⟨urlA⟩
      [["timestamp"], ["20251001000000"]] (by decide) rfl).1).mpr
    ⟨["timestamp"], "20251001000000", ⟨2025, 10, 1, 0, 0, 0⟩, rfl, by decide, by decide⟩

/-- C4: on a non-success submission status, `archive_url` runs exactly
one compensating existence check, on the original (pre-resolution) URL
string; if that check succeeds the call returns `Archived`, and only if
it fails does the call fail with `CannotArchive` carrying the submission
status and the original URL. -/
theorem C4_submit_failure_guard (env : Env) (cfg : ClientConfig) (url : String)
    (a : ArchivableUrl) (c : Url) (e0 : Error) (status : Nat) (finalUrl : String)
    (h1 : ArchivableUrl.parse env.urlParse url = .ok a)
    (h2 : resolveStage env a = .ok c)
    (h3 : (check_recent_archive_exists env cfg c.rendered).1 = .error e0)
    (h4 : env.submit (cfg.archive_endpoint ++ a.as_str) = .ok status finalUrl)
    (h5 : isSuccessStatus status = false) :
    (check_recent_archive_exists env cfg url).2 =
      [.checkGet (cfg.check_endpoint ++ a.as_str)] ∧
    (archive_url env cfg url).2 =
      .resolveGet a.as_str ::
        ((check_recent_archive_exists env cfg c.rendered).2 ++
          [.submitGet (cfg.archive_endpoint ++ a.as_str)] ++
          (check_recent_archive_exists env cfg url).2) ∧
    ((check_recent_archive_exists env cfg url).1 = .ok () →
      (archive_url env cfg url).1 = .ok (.Archived finalUrl)) ∧
    (∀ e, (check_recent_archive_exists env cfg url).1 = .error e →
      (archive_url env cfg url).1 =
        .error (.CannotArchive (statusString status) url)) := by
  have htrace1 : (check_recent_archive_exists env cfg url).2 =
      [.checkGet (cfg.check_endpoint ++ a.as_str)] := by
    unfold check_recent_archive_exists
    rw [h1]
  refine ⟨htrace1, ?_⟩
  cases hg : (check_recent_archive_exists env cfg url).1 with
  | ok u =>
    have hrun : archive_url env cfg url =
        (.ok (.Archived finalUrl),
         .resolveGet a.as_str ::
           ((check_recent_archive_exists env cfg c.rendered).2 ++
             [.submitGet (cfg.archive_endpoint ++ a.as_str)] ++
             (check_recent_archive_exists env cfg url).2)) := by
      unfold archive_url
      rw [h1]
      dsimp only
      rw [h2]
      dsimp only
      unfold checkAndSubmit
      dsimp only
      rw [h3]
      dsimp only
      rw [h4]
      dsimp only
      rw [if_neg (by simp [h5])]
      rw [hg]
    refine ⟨?_, ?_, ?_⟩
    · rw [hrun]
    · intro _
      rw [hrun]
    · intro e he
      exact absurd he (by simp)
  | error eg =>
    have hrun : archive_url env cfg url =
        (.error (.CannotArchive (statusString status) url),
         .resolveGet a.as_str ::
           ((check_recent_archive_exists env cfg c.rendered).2 ++
             [.submitGet (cfg.archive_endpoint ++ a.as_str)] ++
             (check_recent_archive_exists env cfg url).2)) := by
      unfold archive_url
      rw [h1]
      dsimp only
      rw [h2]
      dsimp only
      unfold checkAndSubmit
      dsimp only
      rw [h3]
      dsimp only
      rw [h4]
      dsimp only
      rw [if_neg (by simp [h5])]
      rw [hg]
    refine ⟨?_, ?_, ?_⟩
    · rw [hrun]
    · intro hok
      exact absurd hok (by simp)
    · intro e he
      rw [hrun]

/-- C4 (witness): the statement at `envGuardOk`, where the guard's
check finds a fresh snapshot and the call therefore returns `Archived`
despite the 520 submission status. -/
theorem C4_witness :
    (archive_url envGuardOk cfgFixture "https://a.example/").1 =
      .ok (.Archived "https://failed.example/") :=
  (C4_submit_failure_guard envGuardOk cfgFixture "https://a.example/" ⟨urlA⟩ urlB
      (.NoRecentArchive "https://b.example/") 520 "https://failed.example/"
      (by decide) (by decide) (by decide) (by decide) (by decide)).2.2.1 (by decide)

/-- C10: when the submission status is non-success but the
false-negative guard finds a recent snapshot, `archive_url` returns
`Archived` carrying the final URL of the failed submission response,
not `RecentArchiveExists`. -/
theorem C10_guard_success_returns_archived (env : Env) (cfg : ClientConfig)
    (url : String) (a : ArchivableUrl) (c : Url) (e0 : Error) (status : Nat)
    (finalUrl : String)
    (h1 : ArchivableUrl.parse env.urlParse url = .ok a)
    (h2 : resolveStage env a = .ok c)
    (h3 : (check_recent_archive_exists env cfg c.rendered).1 = .error e0)
    (h4 : env.submit (cfg.archive_endpoint ++ a.as_str) = .ok status finalUrl)
    (h5 : isSuccessStatus status = false)
    (h6 : (check_recent_archive_exists env cfg url).1 = .ok ()) :
    (archive_url env cfg url).1 = .ok (.Archived finalUrl) ∧
    (archive_url env cfg url).1 ≠ .ok .RecentArchiveExists := by
  have hrun : (archive_url env cfg url).1 = .ok (.Archived finalUrl) := by
    unfold archive_url
    rw [h1]
    dsimp only
    rw [h2]
    dsimp only
    unfold checkAndSubmit
    dsimp only
    rw [h3]
    dsimp only
    rw [h4]
    dsimp only
    rw [if_neg (by simp [h5])]
    rw [h6]
  refine ⟨hrun, ?_⟩
  rw [hrun]
  simp

/-- C10 (witness): the statement at `envGuardOk`. -/
theorem C10_witness :
    (archive_url envGuardOk cfgFixture "https://a.example/").1 =
      .ok (.Archived "https://failed.example/") ∧
    (archive_url envGuardOk cfgFixture "https://a.example/").1 ≠
      .ok .RecentArchiveExists :=
  C10_guard_success_returns_archived envGuardOk cfgFixture "https://a.example/"
    ⟨urlA⟩ urlB (.NoRecentArchive "https://b.example/") 520 "https://failed.example/"
    (by decide) (by decide) (by decide) (by decide) (by decide) (by decide)

/-- C7: if the RESOLVE GET fails at the network level, `archive_url`
proceeds to the CHECK/SUBMIT phase with the original validated URL; if
the GET succeeds but re-validation of the final location fails,
`archive_url` aborts with exactly that validation error. -/
theorem C7_resolve_fallback_and_revalidation (env : Env) (cfg : ClientConfig)
    (url : String) (a : ArchivableUrl)
    (h1 : ArchivableUrl.parse env.urlParse url = .ok a) :
    (env.resolve a.as_str = none →
      archive_url env cfg url =
        ((checkAndSubmit env cfg url a a.url).1,
         .resolveGet a.as_str :: (checkAndSubmit env cfg url a a.url).2)) ∧
    (∀ finalUrl e, env.resolve a.as_str = some finalUrl →
      ArchivableUrl.parse env.urlParse finalUrl = .error e →
      archive_url env cfg url = (.error e, [.resolveGet a.as_str])) := by
  constructor
  · intro hres
    have h2 : resolveStage env a = .ok a.url := by
      unfold resolveStage
      rw [hres]
    unfold archive_url
    rw [h1]
    dsimp only
    rw [h2]
  · intro finalUrl e hres hval
    have h2 : resolveStage env a = .error e := by
      unfold resolveStage
      rw [hres]
      dsimp only
      rw [hval]
    unfold archive_url
    rw [h1]
    dsimp only
    rw [h2]

/-- C7 (witness): the statement at `envFresh` (resolution network
failure: fall back to the original URL). -/
theorem C7_witness :
    archive_url envFresh cfgFixture "https://a.example/" =
      ((checkAndSubmit envFresh cfgFixture "https://a.example/" ⟨urlA⟩
          (⟨urlA⟩ : ArchivableUrl).url).1,
       .resolveGet (⟨urlA⟩ : ArchivableUrl).as_str ::
         (checkAndSubmit envFresh cfgFixture "https://a.example/" ⟨urlA⟩
           (⟨urlA⟩ : ArchivableUrl).url).2) :=
  (C7_resolve_fallback_and_revalidation envFresh cfgFixture "https://a.example/"
    ⟨urlA⟩ (by decide)).1 rfl

/-- Helper: `resolveStage` errors come from re-validation, so they are
`InvalidUrl` or `ExcludedUrl`. -/
theorem resolveStage_error_kind (env : Env) (a : ArchivableUrl) (e : Error)
    (h : resolveStage env a = .error e) :
    (∃ s, e = .InvalidUrl s) ∨ (∃ s, e = .ExcludedUrl s) := by
  unfold resolveStage at h
  split at h
  · simp at h
  · rename_i finalUrl hres
    split at h
    · rename_i e2 hp
      exact (Except.error.inj h) ▸ parse_error_kind env.urlParse finalUrl e2 hp
    · simp at h

/-- Helper: errors of the CHECK/SUBMIT phase are `RequestFailed` or
`CannotArchive`. -/
theorem checkAndSubmit_error_kind (env : Env) (cfg : ClientConfig) (url : String)
    (a : ArchivableUrl) (c : Url) (e : Error)
    (h : (checkAndSubmit env cfg url a c).1 = .error e) :
    (∃ s, e = .RequestFailed s) ∨ (∃ s t, e = .CannotArchive s t) := by
  unfold checkAndSubmit at h
  dsimp only at h
  split at h
  · simp at h
  · split at h
    · exact .inl ⟨_, (Except.error.inj h).symm⟩
    · split at h
      · simp at h
      · split at h
        · exact .inr ⟨_, _, (Except.error.inj h).symm⟩
        · simp at h

/-- C9: `archive_url` never surfaces the checker-internal errors
`NoRecentArchive` or `CannotCheckArchive` (its error set is contained in
InvalidUrl/ExcludedUrl/RequestFailed/CannotArchive), and any failure of
the CHECK-stage existence check causes the pipeline to proceed to
submission: the submission request is then in the trace. -/
theorem C9_error_taxonomy (env : Env) (cfg : ClientConfig) (url : String) :
    (∀ e, (archive_url env cfg url).1 = .error e → e.isCheckInternal = false) ∧
    (∀ a c e0, ArchivableUrl.parse env.urlParse url = .ok a →
      resolveStage env a = .ok c →
      (check_recent_archive_exists env cfg c.rendered).1 = .error e0 →
      Request.submitGet (cfg.archive_endpoint ++ a.as_str) ∈
        (archive_url env cfg url).2) := by
  constructor
  · intro e he
    unfold archive_url at he
    cases hp : ArchivableUrl.parse env.urlParse url with
    | error e2 =>
      rw [hp] at he
      dsimp only at he
      have hkind := parse_error_kind env.urlParse url e2 hp
      rcases (Except.error.inj he) ▸ hkind with ⟨s, rfl⟩ | ⟨s, rfl⟩ <;> rfl
    | ok a =>
      rw [hp] at he
      dsimp only at he
      cases hr : resolveStage env a with
      | error e2 =>
        rw [hr] at he
        dsimp only at he
        have hkind := resolveStage_error_kind env a e2 hr
        rcases (Except.error.inj he) ▸ hkind with ⟨s, rfl⟩ | ⟨s, rfl⟩ <;> rfl
      | ok c =>
        rw [hr] at he
        dsimp only at he
        rcases checkAndSubmit_error_kind env cfg url a c e he with
          ⟨s, rfl⟩ | ⟨s, t, rfl⟩ <;> rfl
  · intro a c e0 h1 h2 h3
    unfold archive_url
    rw [h1]
    dsimp only
    rw [h2]
    dsimp only
    unfold checkAndSubmit
    dsimp only
    rw [h3]
    dsimp only
    cases hsub : env.submit (cfg.archive_endpoint ++ a.as_str) with
    | err m => simp
    | ok status finalUrl =>
      by_cases hsc : isSuccessStatus status = true
      · simp [hsc]
      · cases hcomp : (check_recent_archive_exists env cfg url).1 with
        | error eg => simp [hsc, hcomp]
        | ok u => simp [hsc, hcomp]

/-- C9 (witness): at `envGuardFail` the check fails, the pipeline
proceeds to submission, and the surfaced error is `CannotArchive`. -/
theorem C9_witness :
    Error.isCheckInternal (.CannotArchive (statusString 520) "https://a.example/") =
      false ∧
    Request.submitGet (cfgFixture.archive_endpoint ++
        (⟨urlA⟩ : ArchivableUrl).as_str) ∈
      (archive_url envGuardFail cfgFixture "https://a.example/").2 := by
  constructor
  · exact (C9_error_taxonomy envGuardFail cfgFixture "https://a.example/").1
      (.CannotArchive (statusString 520) "https://a.example/") (by decide)
  · exact (C9_error_taxonomy envGuardFail cfgFixture "https://a.example/").2
      ⟨urlA⟩ urlA (.NoRecentArchive "https://a.example/")
      (by decide) (by decide) (by decide)

/-- C8 (witness): the amended statement at a concrete clock value. -/
theorem C8_witness :
    (ClientConfig.default ⟨2026, 10, 12, 0, 0, 0⟩).retry_policy.max_retries =
      DEFAULT_MAX_REQUEST_RETRIES ∧
    DEFAULT_MAX_REQUEST_RETRIES = 10 ∧
    (ClientConfig.default ⟨2026, 10, 12, 0, 0, 0⟩).archive_threshold_timestamp =
      nowMinusDays ⟨2026, 10, 12, 0, 0, 0⟩ DEFAULT_ARCHIVE_THRESHOLD_DAYS ∧
    DEFAULT_ARCHIVE_THRESHOLD_DAYS = 30 :=
  C8_default_config ⟨2026, 10, 12, 0, 0, 0⟩
